import Mathlib

/-!
Verification of the `compute` facade of the Ignite C++ client SDK
(`modules/platforms/cpp/ignite/client/compute/compute.h`).

The header contains the facade class `compute` with:
  * a declaration of `execute_async(nodes, job_class_name, args, callback)`;
  * an inline definition of `execute(nodes, job_class_name, args)` as
    `sync<std::optional<primitive>>` applied to an initiator lambda that calls
    `execute_async` with the same captured arguments;
  * a private constructor storing a shared handle `m_impl` to the opaque
    delegate `detail::compute_impl`.

The bodies of `sync`, `execute_async` and `compute_impl` are not part of the
excerpt; they are modelled here from the specification (each such definition
carries a doc comment starting `Modelled from the spec:`).  `compute.execute`
is transcribed from the source.
-/

namespace Ignite

/-- Modelled from the spec: the cluster-node reference type (`cluster_node`,
external collaborator): an opaque, equality-comparable identifier/handle. -/
structure cluster_node where
  id : String
deriving DecidableEq, Repr

/-- Modelled from the spec: the opaque tagged-union `primitive` value type used
for job arguments and results; the exact variants are unspecified by the
excerpt, a representative set is used. -/
inductive primitive where
  | null : primitive
  | int : Int → primitive
  | text : String → primitive
  | boolean : Bool → primitive
deriving DecidableEq, Repr

/-- Modelled from the spec: the abstract error taxonomy of §7:
invalid-argument, dispatch/transport failure, bridge-internal failure. -/
inductive error_kind where
  | invalid_argument : error_kind
  | dispatch_failure : error_kind
  | bridge_internal : error_kind
deriving DecidableEq, Repr

/-- Modelled from the spec: an error value carrying its kind and message, the
identity that must be preserved by the sync bridge (same kind, same
message/code). -/
structure ignite_error where
  kind : error_kind
  message : String
deriving DecidableEq, Repr

/-- Modelled from the spec: the outcome delivered on the completion channel —
either a success value or a failure (`ignite_result<T>`). -/
inductive ignite_result (T : Type) where
  | ok : T → ignite_result T
  | err : ignite_error → ignite_result T
deriving DecidableEq, Repr

/-- The observable behavior of one invocation of an asynchronous initiator:
whether the initiator raised synchronously before registering the completion
callback, the ordered sequence of completion-callback invocations, and the
calls it forwarded to the delegate (each recorded with the node list, job
class name and argument list passed). -/
structure invocation (T : Type) where
  sync_raise : Option ignite_error
  callback_events : List (ignite_result T)
  delegate_calls : List (List cluster_node × String × List primitive)
deriving DecidableEq, Repr

/-- Modelled from the spec: the opaque delegate `detail::compute_impl`,
characterized by the single outcome it delivers to the completion callback for
a given request (per §4.2 it calls the callback exactly once with the result
or a failure). -/
def compute_impl : Type :=
  List cluster_node → String → List primitive → ignite_result (Option primitive)

/-- The `compute` facade: it stores exactly one piece of state, the shared
handle `m_impl` to the delegate implementation, set at construction. -/
structure compute where
  m_impl : compute_impl

/-- Modelled from the spec: the body of `compute::execute_async` is not in the
excerpt (the header only declares it).  Per §4.2 and §7(a): an empty node set
is detected by the facade as an invalid-argument failure raised synchronously,
before the callback is registered and without invoking the delegate; otherwise
the request is forwarded unchanged to the delegate, which completes the
callback exactly once with its outcome. -/
def compute.execute_async (c : compute) (nodes : List cluster_node)
    (job_class_name : String) (args : List primitive) :
    invocation (Option primitive) :=
  if nodes.isEmpty then
    { sync_raise := some ⟨.invalid_argument, "Nodes list is empty"⟩
      callback_events := []
      delegate_calls := [] }
  else
    { sync_raise := none
      callback_events := [c.m_impl nodes job_class_name args]
      delegate_calls := [(nodes, job_class_name, args)] }

/-- Modelled from the spec: the sync-over-async bridge `sync<T>` of §4.1, whose
definition is not in the excerpt.  It supplies a one-shot completion callback
that stores the outcome, invokes the initiator with it, blocks until the first
completion signal, then returns the stored value or re-raises the stored
failure unchanged; a failure raised synchronously by the initiator propagates
directly.  `none` models a call that never returns because no completion was
ever signaled. -/
def sync {T : Type} (inv : invocation T) : Option (ignite_result T) :=
  match inv.sync_raise with
  | some e => some (.err e)
  | none => inv.callback_events.head?

/-- `compute::execute`, transcribed from the source: the sync bridge applied
to an initiator that calls `execute_async` with the same node list, job class
name and argument list that `execute` received. -/
def compute.execute (c : compute) (nodes : List cluster_node)
    (job_class_name : String) (args : List primitive) :
    Option (ignite_result (Option primitive)) :=
  sync (c.execute_async nodes job_class_name args)

/-- Claim C1: for every invocation of `execute` whose underlying asynchronous
operation completes successfully with a value `v` (the completion callback
receives `ok v`), `execute` — the sync bridge applied to `execute_async` —
returns exactly that same value `v`. -/
theorem execute_returns_async_success_value (c : compute)
    (nodes : List cluster_node) (job_class_name : String)
    (args : List primitive) (v : Option primitive)
    (h : (c.execute_async nodes job_class_name args).callback_events
          = [ignite_result.ok v]) :
    c.execute nodes job_class_name args = some (.ok v) := by
  by_cases hn : nodes.isEmpty <;>
    simp [compute.execute, sync, compute.execute_async, hn] at h ⊢
  simp [h]

/-- Witness for C1: a delegate that completes with `primitive(42)` makes
`execute` return `optional(primitive(42))`. -/
theorem execute_returns_async_success_value_witness :
    (compute.mk (fun _ _ _ => .ok (some (.int 42)))).execute
        [⟨"node-1"⟩] "com.example.Job" [] = some (.ok (some (.int 42))) :=
  execute_returns_async_success_value _ _ _ _ _ rfl

/-- Claim C2: for every invocation of `execute` whose underlying asynchronous
operation completes with a failure `e`, `execute` propagates an error equal to
`e` (same kind, same message): the bridge does not alter, wrap or lose the
error identity the callback received. -/
theorem execute_propagates_async_error (c : compute)
    (nodes : List cluster_node) (job_class_name : String)
    (args : List primitive) (e : ignite_error)
    (h : (c.execute_async nodes job_class_name args).callback_events
          = [ignite_result.err e]) :
    c.execute nodes job_class_name args = some (.err e) := by
  by_cases hn : nodes.isEmpty <;>
    simp [compute.execute, sync, compute.execute_async, hn] at h ⊢
  simp [h]

/-- Witness for C2: a delegate failing with a node-unreachable dispatch error
makes `execute` surface that very error. -/
theorem execute_propagates_async_error_witness :
    (compute.mk (fun _ _ _ => .err ⟨.dispatch_failure, "node unreachable"⟩)).execute
        [⟨"node-1"⟩] "com.example.Job" []
      = some (.err ⟨.dispatch_failure, "node unreachable"⟩) :=
  execute_propagates_async_error _ _ _ _ _ rfl

/-- Claim C3: calling `execute` with an empty node sequence surfaces an
invalid-argument error to the caller, and the delegate implementation is not
invoked for that call. -/
theorem execute_empty_nodes_invalid_argument (c : compute)
    (job_class_name : String) (args : List primitive) :
    (∃ e, c.execute [] job_class_name args = some (.err e)
          ∧ e.kind = .invalid_argument) ∧
    (c.execute_async [] job_class_name args).delegate_calls = [] :=
  ⟨⟨⟨.invalid_argument, "Nodes list is empty"⟩, rfl, rfl⟩, rfl⟩

/-- Counterexample to claim C4 as stated: it is not the case that every
invocation of `execute_async` invokes the completion callback exactly once.
With an empty node sequence the facade raises the invalid-argument failure
synchronously, before the callback is ever registered, so the callback fires
zero times there. -/
theorem execute_async_callback_once_counterexample :
    ¬ ∀ (c : compute) (nodes : List cluster_node) (job_class_name : String)
        (args : List primitive),
        (c.execute_async nodes job_class_name args).callback_events.length
          = 1 := by
  intro h
  have h0 := h ⟨fun _ _ _ => .ok none⟩ [] "com.example.Job" []
  simp [compute.execute_async] at h0

/-- Claim C4 (amended): for every invocation of `execute_async` with a
non-empty node sequence, the completion callback is invoked exactly once —
with either a result or a failure, never both, never zero times; with an empty
node sequence the facade raises synchronously before registering the callback,
which therefore fires zero times. -/
theorem execute_async_callback_exactly_once (c : compute)
    (nodes : List cluster_node) (job_class_name : String)
    (args : List primitive) :
    (c.execute_async nodes job_class_name args).callback_events.length
        = (if nodes.isEmpty then 0 else 1) ∧
    (nodes.isEmpty = true →
      ((c.execute_async nodes job_class_name args).sync_raise.isSome = true
        ∧ (c.execute_async nodes job_class_name args).callback_events = [])) := by
  by_cases hn : nodes.isEmpty <;> simp [compute.execute_async, hn]

/-- Witness for C4 (amended): with one node the callback fires exactly once,
and with no nodes it never fires while the initiator raises. -/
theorem execute_async_callback_exactly_once_witness :
    (((compute.mk (fun _ _ _ => .ok none)).execute_async
        [⟨"node-1"⟩] "com.example.Job" []).callback_events.length
      = (if ([⟨"node-1"⟩] : List cluster_node).isEmpty then 0 else 1)) ∧
    (((compute.mk (fun _ _ _ => .ok none)).execute_async
        [] "com.example.Job" []).sync_raise.isSome = true
      ∧ ((compute.mk (fun _ _ _ => .ok none)).execute_async
        [] "com.example.Job" []).callback_events = []) :=
  ⟨(execute_async_callback_exactly_once _ _ _ _).1,
   (execute_async_callback_exactly_once
      (compute.mk (fun _ _ _ => .ok none)) [] "com.example.Job" []).2 rfl⟩

/-- Claim C5: `execute` never returns (or raises) before the underlying
asynchronous operation has signaled completion: whenever `execute` produces an
outcome `r`, a completion signal exists — either the initiator raised
synchronously with the very error `r` carries, or the first completion
callback invocation carried exactly `r`.  A run with no completion signal is
modelled as `none` (the bridge blocks forever), so a returned outcome is
always derived from a completion signal. -/
theorem execute_returns_only_after_completion (c : compute)
    (nodes : List cluster_node) (job_class_name : String)
    (args : List primitive) (r : ignite_result (Option primitive))
    (h : c.execute nodes job_class_name args = some r) :
    (∃ e, (c.execute_async nodes job_class_name args).sync_raise = some e
          ∧ r = .err e) ∨
    (c.execute_async nodes job_class_name args).callback_events.head?
        = some r := by
  unfold compute.execute sync at h
  cases hs : (c.execute_async nodes job_class_name args).sync_raise with
  | some e =>
    rw [hs] at h
    exact Or.inl ⟨e, rfl, (Option.some.inj h).symm⟩
  | none =>
    rw [hs] at h
    exact Or.inr h

/-- Witness for C5: for a delegate completing with `primitive(7)`, the
returned outcome coincides with the completion signal. -/
theorem execute_returns_only_after_completion_witness :
    (∃ e, ((compute.mk (fun _ _ _ => .ok (some (.int 7)))).execute_async
            [⟨"node-1"⟩] "com.example.Job" []).sync_raise = some e
          ∧ (ignite_result.ok (some (primitive.int 7))) = .err e) ∨
    ((compute.mk (fun _ _ _ => .ok (some (.int 7)))).execute_async
        [⟨"node-1"⟩] "com.example.Job" []).callback_events.head?
      = some (.ok (some (.int 7))) :=
  execute_returns_only_after_completion _ _ _ _ _ rfl

/-- Claim C6: when the initiator (the wrapped `execute_async` call) fails
synchronously before registering its completion callback, that failure still
surfaces to the caller of `execute` exactly once — as the single returned
error outcome — neither swallowed (`some`, carrying the error) nor hanging
(not `none`). -/
theorem execute_surfaces_synchronous_initiator_failure (c : compute)
    (nodes : List cluster_node) (job_class_name : String)
    (args : List primitive) (e : ignite_error)
    (h : (c.execute_async nodes job_class_name args).sync_raise = some e) :
    c.execute nodes job_class_name args = some (.err e) := by
  unfold compute.execute sync
  rw [h]

/-- Witness for C6: the empty-node validation failure is raised synchronously
by the initiator and surfaces as the single error outcome of `execute`. -/
theorem execute_surfaces_synchronous_initiator_failure_witness :
    (compute.mk (fun _ _ _ => .ok none)).execute [] "com.example.Job" []
      = some (.err ⟨.invalid_argument, "Nodes list is empty"⟩) :=
  execute_surfaces_synchronous_initiator_failure _ _ _ _ _ rfl

/-- Claim C7: an absent job result is not an error: when the completion
callback is completed with `ok v` (in particular `v = none`, "no value", or
`v = some (primitive 42)`), `execute` returns exactly that optional value and
never an error — absence of a result is distinguished from the failure
channel. -/
theorem execute_absent_result_is_not_error (c : compute)
    (nodes : List cluster_node) (job_class_name : String)
    (args : List primitive) (v : Option primitive)
    (h : (c.execute_async nodes job_class_name args).callback_events
          = [ignite_result.ok v]) :
    c.execute nodes job_class_name args = some (.ok v) ∧
    ∀ e, c.execute nodes job_class_name args ≠ some (.err e) := by
  by_cases hn : nodes.isEmpty <;>
    simp [compute.execute, sync, compute.execute_async, hn] at h ⊢
  simp [h]

/-- Witness for C7: a callback completed with no value yields the empty
optional, and one completed with `primitive(42)` yields `optional(42)`. -/
theorem execute_absent_result_is_not_error_witness :
    ((compute.mk (fun _ _ _ => .ok none)).execute
        [⟨"node-1"⟩] "com.example.Job" [] = some (.ok none)) ∧
    ((compute.mk (fun _ _ _ => .ok (some (.int 42)))).execute
        [⟨"node-2"⟩] "com.example.Job" [] = some (.ok (some (.int 42)))) :=
  ⟨(execute_absent_result_is_not_error (compute.mk (fun _ _ _ => .ok none))
      [⟨"node-1"⟩] "com.example.Job" [] none rfl).1,
   (execute_absent_result_is_not_error
      (compute.mk (fun _ _ _ => .ok (some (.int 42))))
      [⟨"node-2"⟩] "com.example.Job" [] (some (.int 42)) rfl).1⟩

/-- Claim C8: no transaction is threaded through the job-execution operations
of this facade.  In the embedding, `execute_async` and `execute` take exactly
the node list, the job class name and the argument list (mirroring the C++
signatures, which have no transaction parameter), and everything the facade
forwards to the delegate is exactly that transaction-free triple. -/
theorem execute_threads_no_transaction (c : compute)
    (nodes : List cluster_node) (job_class_name : String)
    (args : List primitive) :
    (c.execute_async nodes job_class_name args).delegate_calls.length ≤ 1 ∧
    ∀ call ∈ (c.execute_async nodes job_class_name args).delegate_calls,
      call = (nodes, job_class_name, args) := by
  by_cases hn : nodes.isEmpty <;> simp [compute.execute_async, hn]

/-- Claim C9: `execute` calls `execute_async` exactly once, with exactly the
node sequence, job class name and argument sequence it received: its result is
the sync bridge applied to that single `execute_async` invocation, and it
depends on nothing but the behavior of `execute_async` at those unmodified
arguments. -/
theorem execute_delegates_to_execute_async (c c2 : compute)
    (nodes : List cluster_node) (job_class_name : String)
    (args : List primitive)
    (h : c.execute_async nodes job_class_name args
          = c2.execute_async nodes job_class_name args) :
    c.execute nodes job_class_name args
        = sync (c.execute_async nodes job_class_name args) ∧
    c.execute nodes job_class_name args
        = c2.execute nodes job_class_name args := by
  exact ⟨rfl, by unfold compute.execute; rw [h]⟩

/-- Witness for C9: two facades with different delegates that behave alike on
a given request produce the same synchronous result, which is the bridge
applied to the asynchronous invocation. -/
theorem execute_delegates_to_execute_async_witness :
    ((compute.mk (fun _ _ _ => .ok none)).execute
        [⟨"node-1"⟩] "com.example.Job" []
      = sync ((compute.mk (fun _ _ _ => .ok none)).execute_async
          [⟨"node-1"⟩] "com.example.Job" [])) ∧
    ((compute.mk (fun _ _ _ => .ok none)).execute
        [⟨"node-1"⟩] "com.example.Job" []
      = (compute.mk (fun ns _ _ => if ns.isEmpty then .err ⟨.dispatch_failure, "x"⟩ else .ok none)).execute
          [⟨"node-1"⟩] "com.example.Job" []) :=
  execute_delegates_to_execute_async
    (compute.mk (fun _ _ _ => .ok none))
    (compute.mk (fun ns _ _ => if ns.isEmpty then .err ⟨.dispatch_failure, "x"⟩ else .ok none))
    [⟨"node-1"⟩] "com.example.Job" [] rfl

/-- Claim C10: a `compute` instance consists of nothing but the
implementation handle `m_impl` fixed at construction: every instance equals
the constructor applied to its stored handle, two instances with the same
handle are the same instance, and the facade operations read the handle
without ever producing a reassigned one (they are functions of it alone). -/
theorem compute_state_is_construction_handle (c c2 : compute)
    (h : c.m_impl = c2.m_impl) (nodes : List cluster_node)
    (job_class_name : String) (args : List primitive) :
    c = compute.mk c.m_impl ∧ c = c2 ∧
    c.execute_async nodes job_class_name args
        = c2.execute_async nodes job_class_name args ∧
    c.execute nodes job_class_name args
        = c2.execute nodes job_class_name args := by
  obtain ⟨i⟩ := c
  obtain ⟨i2⟩ := c2
  cases h
  exact ⟨rfl, rfl, rfl, rfl⟩

/-- Witness for C10: a concrete instance is its constructor applied to its
handle, and coincides with any instance built from the same handle. -/
theorem compute_state_is_construction_handle_witness :
    (compute.mk (fun _ _ _ => .ok none)
        = compute.mk (compute.mk (fun _ _ _ => .ok none)).m_impl) ∧
    (compute.mk (fun _ _ _ => .ok none)
        = compute.mk (fun _ _ _ => .ok none)) ∧
    ((compute.mk (fun _ _ _ => .ok none)).execute_async
        [⟨"node-1"⟩] "com.example.Job" []
      = (compute.mk (fun _ _ _ => .ok none)).execute_async
        [⟨"node-1"⟩] "com.example.Job" []) ∧
    ((compute.mk (fun _ _ _ => .ok none)).execute
        [⟨"node-1"⟩] "com.example.Job" []
      = (compute.mk (fun _ _ _ => .ok none)).execute
        [⟨"node-1"⟩] "com.example.Job" []) :=
  compute_state_is_construction_handle
    (compute.mk (fun _ _ _ => .ok none))
    (compute.mk (fun _ _ _ => .ok none))
    rfl [⟨"node-1"⟩] "com.example.Job" []

end Ignite
